import Mathlib

/-!
Shallow embedding of `src/eagle_eye/app/static/task.js`: a browser script
that (1) on `DOMContentLoaded` scans all input elements, enables the submit
button when one is pre-checked, and attaches click listeners that enable it,
and (2) registers a document-level `keydown` listener mapping arrow keys and
digit keys to focus-and-click actions on the inputs named "assessment".

DOM side effects (focus, click, console.log) are recorded as explicit
`Act` values; DOM state touched by the script is the submit button's
`disabled` flag (a `Bool`) and the list of input elements.  A missing
`submit` element (`getElementById` returning null) makes the assignment
`submitButton.disabled = false` raise a TypeError, modelled with `Except`.
-/

/-- An input element as the script sees it: its `checked` flag and its
`name` attribute (the script selects those named "assessment"). -/
structure Input where
  checked : Bool
  name : String
deriving DecidableEq

/-- A DOM side effect performed by the keydown listener: focusing or
clicking the assessment input at an index, or a `console.log` call from the
catch clause. -/
inductive Act where
  | focus (i : Int)
  | click (i : Int)
  | log (e : String)
deriving DecidableEq

/-- `document.getElementsByName("assessment")`: the inputs of the page whose
name attribute is exactly "assessment", in document order. -/
def inputButtonsOf (doc : List Input) : List Input :=
  doc.filter (fun b => b.name = "assessment")

/-- JavaScript `parseInt` on a key name: skip leading whitespace, read an
optional sign and a longest run of decimal digits; an empty digit run gives
`NaN`, modelled as `none`.  `parseInt` never throws. -/
def jsParseInt (s : String) : Option Int :=
  let cs := s.toList.dropWhile (fun c => c == ' ' || c == '\t' || c == '\n' || c == '\r')
  match cs with
  | '-' :: rest =>
      let ds := rest.takeWhile Char.isDigit
      if ds.isEmpty then none
      else some (-((ds.foldl (fun a c => a * 10 + (c.toNat - 48)) 0 : Nat) : Int))
  | '+' :: rest =>
      let ds := rest.takeWhile Char.isDigit
      if ds.isEmpty then none
      else some ((ds.foldl (fun a c => a * 10 + (c.toNat - 48)) 0 : Nat) : Int)
  | other =>
      let ds := other.takeWhile Char.isDigit
      if ds.isEmpty then none
      else some ((ds.foldl (fun a c => a * 10 + (c.toNat - 48)) 0 : Nat) : Int)

/-- Body of the `try` block of the keydown listener: parse the key name and,
when the value is a number N with `N > 0 && N <= inputButtons.length`, focus
and click the input at index `N - 1`.  A `NaN` value (parse failure) fails
the `>` comparison, so nothing happens. -/
def keydownTryBody (keyName : String) (inputButtonsLength : Nat) : List Act :=
  match jsParseInt keyName with
  | none => []
  | some keyNumberValue =>
      if keyNumberValue > 0 ∧ keyNumberValue ≤ (inputButtonsLength : Int) then
        [Act.focus (keyNumberValue - 1), Act.click (keyNumberValue - 1)]
      else []

/-- The `try` block as run by JavaScript: `parseInt` is total (it returns
`NaN` rather than throwing), so the block always completes normally. -/
def keydownTry (keyName : String) (inputButtonsLength : Nat) :
    Except String (List Act) :=
  Except.ok (keydownTryBody keyName inputButtonsLength)

/-- The `try`/`catch`: a thrown error `e` would be answered by
`console.log(e)`; a normal completion returns the block's actions. -/
def keydownCatch (body : Except String (List Act)) : List Act :=
  match body with
  | Except.ok as => as
  | Except.error e => [Act.log e]

/-- The document-level keydown listener.  `inputButtons`, its length and the
half length are captured at registration time from the page.  The branches
run in order: ArrowDown (length > 0) targets the half index, ArrowLeft
(length > 1) the half index minus one, ArrowRight (length > 2) the half
index plus one; otherwise the try/catch digit branch runs. -/
def keydownActions (doc : List Input) (keyName : String) : List Act :=
  let inputButtons := inputButtonsOf doc
  let inputButtonsLength := inputButtons.length
  let inputButtonsHalfLength : Int := (inputButtonsLength : Int) / 2
  if keyName = "ArrowDown" ∧ inputButtonsLength > 0 then
    [Act.focus inputButtonsHalfLength, Act.click inputButtonsHalfLength]
  else if keyName = "ArrowLeft" ∧ inputButtonsLength > 1 then
    [Act.focus (inputButtonsHalfLength - 1), Act.click (inputButtonsHalfLength - 1)]
  else if keyName = "ArrowRight" ∧ inputButtonsLength > 2 then
    [Act.focus (inputButtonsHalfLength + 1), Act.click (inputButtonsHalfLength + 1)]
  else
    keydownCatch (keydownTry keyName inputButtonsLength)

/-- The loop of the `DOMContentLoaded` handler over `querySelectorAll("input")`
(every input on the page, not only the assessment group).  For a checked
input it runs `submitButton.disabled = false`, which raises a TypeError when
`getElementById("submit")` returned null (`submitPresent = false`); it also
attaches a click listener (`clickListener`) to each input.  Returns the
final `disabled` flag of the submit button. -/
def initLoop (submitPresent : Bool) : List Input → Bool → Except String Bool
  | [], disabled => Except.ok disabled
  | radioButton :: rest, disabled =>
      if radioButton.checked then
        if submitPresent then initLoop submitPresent rest false
        else Except.error "TypeError: cannot set disabled of null"
      else initLoop submitPresent rest disabled

/-- The `DOMContentLoaded` handler: look up the submit button, then run the
loop over all inputs with the current `disabled` flag. -/
def initHandler (submitPresent : Bool) (doc : List Input) (disabled : Bool) :
    Except String Bool :=
  initLoop submitPresent doc disabled

/-- The click listener attached to each input: `submitButton.disabled = false`,
which raises a TypeError when the submit button is absent. -/
def clickListener (submitPresent : Bool) : Except String Bool :=
  if submitPresent then Except.ok false
  else Except.error "TypeError: cannot set disabled of null"

/-- The events this component reacts to over one page session. -/
inductive Ev where
  | domContentLoaded
  | clickInput
  | keydown (key : String)

/-- One step of the submit button's `disabled` flag on a page whose submit
button exists: `DOMContentLoaded` runs the init handler, a click on any
input runs the registered listener (setting `disabled` to false), and a
keydown whose selected target is clicked re-enters that listener. -/
def step (doc : List Input) (disabled : Bool) : Ev → Bool
  | Ev.domContentLoaded =>
      match initHandler true doc disabled with
      | Except.ok d => d
      | Except.error _ => disabled
  | Ev.clickInput => false
  | Ev.keydown key =>
      if (keydownActions doc key).any (fun a =>
          match a with | Act.click _ => true | _ => false)
      then false else disabled

/-- A sample page with five unchecked assessment inputs. -/
def doc5 : List Input :=
  List.replicate 5 { checked := false, name := "assessment" }

/-- A sample page with a single assessment input. -/
def doc1 : List Input :=
  [{ checked := false, name := "assessment" }]

/-- With the submit button present, the init loop started on an
already-enabled button leaves it enabled. -/
theorem initLoop_true_false (doc : List Input) :
    initLoop true doc false = Except.ok false := by
  induction doc with
  | nil => rfl
  | cons b rest ih => cases hb : b.checked <;> simp [initLoop, hb, ih]

/-- With the submit button present and some input checked, the init loop
ends with the button enabled. -/
theorem initLoop_true_checked (doc : List Input) (d : Bool)
    (h : ∃ b ∈ doc, b.checked = true) :
    initLoop true doc d = Except.ok false := by
  induction doc generalizing d with
  | nil => simp at h
  | cons b rest ih =>
      rcases h with ⟨x, hx, hc⟩
      rcases List.mem_cons.mp hx with rfl | hx'
      · simp [initLoop, hc, initLoop_true_false]
      · cases hb : b.checked
        · simp only [initLoop, hb, if_neg Bool.false_ne_true]
          exact ih d ⟨x, hx', hc⟩
        · simp [initLoop, hb, initLoop_true_false]

/-- With the submit button absent and no input checked, the init loop
completes without fault and without touching the flag. -/
theorem initLoop_false_unchecked (doc : List Input) (d : Bool)
    (h : ∀ b ∈ doc, b.checked = false) :
    initLoop false doc d = Except.ok d := by
  induction doc with
  | nil => rfl
  | cons b rest ih =>
      have hb := h b (List.mem_cons_self b rest)
      simp only [initLoop, hb, if_neg Bool.false_ne_true]
      exact ih fun x hx => h x (List.mem_cons_of_mem b hx)

/-- With the submit button absent and some input checked, the init loop
raises a TypeError. -/
theorem initLoop_false_checked (doc : List Input) (d : Bool)
    (h : ∃ b ∈ doc, b.checked = true) :
    ∃ e, initLoop false doc d = Except.error e := by
  induction doc generalizing d with
  | nil => simp at h
  | cons b rest ih =>
      rcases h with ⟨x, hx, hc⟩
      rcases List.mem_cons.mp hx with rfl | hx'
      · exact ⟨"TypeError: cannot set disabled of null", by simp [initLoop, hc]⟩
      · cases hb : b.checked
        · simp only [initLoop, hb, if_neg Bool.false_ne_true]
          exact ih d ⟨x, hx', hc⟩
        · exact ⟨"TypeError: cannot set disabled of null", by simp [initLoop, hb]⟩

/-- Case analysis of one keydown dispatch: either no action at all, or
exactly one in-bounds target index, first focused and then clicked. -/
theorem keydownActions_cases (doc : List Input) (key : String) :
    keydownActions doc key = [] ∨
    ∃ i : Int, 0 ≤ i ∧ i < ((inputButtonsOf doc).length : Int) ∧
      keydownActions doc key = [Act.focus i, Act.click i] := by
  simp only [keydownActions]
  by_cases h1 : key = "ArrowDown" ∧ (inputButtonsOf doc).length > 0
  · rw [if_pos h1]
    exact Or.inr ⟨_, by omega, by omega, rfl⟩
  rw [if_neg h1]
  by_cases h2 : key = "ArrowLeft" ∧ (inputButtonsOf doc).length > 1
  · rw [if_pos h2]
    exact Or.inr ⟨_, by omega, by omega, rfl⟩
  rw [if_neg h2]
  by_cases h3 : key = "ArrowRight" ∧ (inputButtonsOf doc).length > 2
  · rw [if_pos h3]
    exact Or.inr ⟨_, by omega, by omega, rfl⟩
  rw [if_neg h3]
  rcases hp : jsParseInt key with _ | v
  · exact Or.inl (by simp [keydownCatch, keydownTry, keydownTryBody, hp])
  · by_cases hg : v > 0 ∧ v ≤ ((inputButtonsOf doc).length : Int)
    · refine Or.inr ⟨v - 1, by omega, by omega, ?_⟩
      simp [keydownCatch, keydownTry, keydownTryBody, hp, hg]
    · exact Or.inl (by simp [keydownCatch, keydownTry, keydownTryBody, hp, hg])

/-- C1: with `length` the size of the assessment sequence and
`half = floor(length / 2)`: ArrowDown (when length > 0) focuses and clicks
index `half`, ArrowLeft (when length > 1) index `half - 1`, ArrowRight
(when length > 2) index `half + 1`. -/
theorem keydown_arrow_targets (doc : List Input) :
    ((inputButtonsOf doc).length > 0 →
      keydownActions doc "ArrowDown" =
        [Act.focus (((inputButtonsOf doc).length : Int) / 2),
         Act.click (((inputButtonsOf doc).length : Int) / 2)]) ∧
    ((inputButtonsOf doc).length > 1 →
      keydownActions doc "ArrowLeft" =
        [Act.focus (((inputButtonsOf doc).length : Int) / 2 - 1),
         Act.click (((inputButtonsOf doc).length : Int) / 2 - 1)]) ∧
    ((inputButtonsOf doc).length > 2 →
      keydownActions doc "ArrowRight" =
        [Act.focus (((inputButtonsOf doc).length : Int) / 2 + 1),
         Act.click (((inputButtonsOf doc).length : Int) / 2 + 1)]) := by
  refine ⟨fun h => ?_, fun h => ?_, fun h => ?_⟩
  · simp [keydownActions, h]
  · simp [keydownActions, h]
  · simp [keydownActions, h, Nat.lt_of_succ_lt h]

/-- C1 witness: for five assessment inputs (half = 2), ArrowDown activates
index 2, ArrowLeft index 1, ArrowRight index 3. -/
theorem keydown_arrow_targets_witness :
    keydownActions doc5 "ArrowDown" = [Act.focus 2, Act.click 2] ∧
    keydownActions doc5 "ArrowLeft" = [Act.focus 1, Act.click 1] ∧
    keydownActions doc5 "ArrowRight" = [Act.focus 3, Act.click 3] := by
  have h := keydown_arrow_targets doc5
  exact ⟨(h.1 (by decide)).trans (by decide),
         (h.2.1 (by decide)).trans (by decide),
         (h.2.2 (by decide)).trans (by decide)⟩

/-- C2: when the key is none of the three arrow keys and parses as an
integer N: if 0 < N and N is at most the assessment-sequence length, the
handler focuses and clicks index N - 1; otherwise it does nothing. -/
theorem keydown_digit_targets (doc : List Input) (key : String) (n : Int)
    (h1 : key ≠ "ArrowDown") (h2 : key ≠ "ArrowLeft") (h3 : key ≠ "ArrowRight")
    (hp : jsParseInt key = some n) :
    ((0 < n ∧ n ≤ ((inputButtonsOf doc).length : Int)) →
      keydownActions doc key = [Act.focus (n - 1), Act.click (n - 1)]) ∧
    (¬(0 < n ∧ n ≤ ((inputButtonsOf doc).length : Int)) →
      keydownActions doc key = []) := by
  constructor <;> intro hg <;>
    simp [keydownActions, keydownCatch, keydownTry, keydownTryBody,
      h1, h2, h3, hp, hg]

/-- C2 witness: with five assessment inputs, key "3" activates index 2 and
key "9" activates nothing. -/
theorem keydown_digit_targets_witness :
    keydownActions doc5 "3" = [Act.focus 2, Act.click 2] ∧
    keydownActions doc5 "9" = [] := by
  have h3 := keydown_digit_targets doc5 "3" 3
    (by decide) (by decide) (by decide) (by decide)
  have h9 := keydown_digit_targets doc5 "9" 9
    (by decide) (by decide) (by decide) (by decide)
  exact ⟨(h3.1 (by decide)).trans (by decide), h9.2 (by decide)⟩

/-- C3: the disabled flag is monotone towards enabled: from the enabled
state (`disabled = false`) every event of the component leaves it enabled,
and a click on any input always enables it. -/
theorem submit_enabled_monotone (doc : List Input) (d : Bool) (e : Ev) :
    step doc false e = false ∧ step doc d Ev.clickInput = false := by
  constructor
  · cases e with
    | domContentLoaded => simp [step, initHandler, initLoop_true_false]
    | clickInput => rfl
    | keydown key => simp only [step]; split <;> rfl
  · rfl

/-- C4: with a single assessment input, ArrowDown targets index 0 while
ArrowLeft and ArrowRight do nothing; with no assessment input, no key at
all produces an action. -/
theorem keydown_small_groups (doc : List Input) :
    ((inputButtonsOf doc).length = 1 →
      keydownActions doc "ArrowDown" = [Act.focus 0, Act.click 0] ∧
      keydownActions doc "ArrowLeft" = [] ∧
      keydownActions doc "ArrowRight" = []) ∧
    ((inputButtonsOf doc).length = 0 →
      ∀ key, keydownActions doc key = []) := by
  constructor
  · intro hn
    have hl : jsParseInt "ArrowLeft" = none := by decide
    have hr : jsParseInt "ArrowRight" = none := by decide
    refine ⟨?_, ?_, ?_⟩ <;>
      simp [keydownActions, keydownCatch, keydownTry, keydownTryBody,
        hn, hl, hr]
  · intro hn key
    simp only [keydownActions, hn]
    norm_num
    rcases hp : jsParseInt key with _ | v
    · simp [keydownCatch, keydownTry, keydownTryBody, hp]
    · simp [keydownCatch, keydownTry, keydownTryBody, hp]

/-- C4 witness: evaluated on a one-input page and on the empty page. -/
theorem keydown_small_groups_witness :
    (keydownActions doc1 "ArrowDown" = [Act.focus 0, Act.click 0] ∧
     keydownActions doc1 "ArrowLeft" = [] ∧
     keydownActions doc1 "ArrowRight" = []) ∧
    keydownActions ([] : List Input) "ArrowDown" = [] := by
  exact ⟨(keydown_small_groups doc1).1 (by decide),
         (keydown_small_groups []).2 (by decide) "ArrowDown"⟩

/-- C5 counterexample: on key "Shift" with five assessment inputs the
handler performs no action at all; in particular nothing is written to the
console log, because `parseInt` returns `NaN` instead of throwing and the
catch clause never runs. -/
theorem keydown_shift_not_logged : keydownActions doc5 "Shift" = [] := by
  decide

/-- C5 amended: on a key that is none of the arrow keys and does not parse
as an integer, the handler performs no action and never writes a log entry;
the catch clause is dead because `parseInt` completes normally (`NaN`). -/
theorem keydown_parse_failure_silent (doc : List Input) (key : String)
    (h1 : key ≠ "ArrowDown") (h2 : key ≠ "ArrowLeft") (h3 : key ≠ "ArrowRight")
    (hp : jsParseInt key = none) :
    keydownActions doc key = [] ∧
    keydownTry key (inputButtonsOf doc).length = Except.ok [] ∧
    ∀ e : String, Act.log e ∉ keydownActions doc key := by
  have hact : keydownActions doc key = [] := by
    simp [keydownActions, keydownCatch, keydownTry, keydownTryBody,
      h1, h2, h3, hp]
  refine ⟨hact, ?_, ?_⟩
  · simp [keydownTry, keydownTryBody, hp]
  · intro e
    simp [hact]

/-- C5 witness: evaluated at key "Shift" on the five-input page. -/
theorem keydown_parse_failure_silent_witness :
    keydownActions doc5 "Shift" = [] ∧
    Act.log "RangeError" ∉ keydownActions doc5 "Shift" := by
  have h := keydown_parse_failure_silent doc5 "Shift"
    (by decide) (by decide) (by decide) (by decide)
  exact ⟨h.1, h.2.2 "RangeError"⟩

/-- C6: a keydown whose key is non-numeric and not an arrow key focuses and
clicks nothing, completes without fault (the try block returns normally),
and leaves the submit button's disabled flag unchanged. -/
theorem keydown_nonnumeric_noop (doc : List Input) (key : String) (d : Bool)
    (h1 : key ≠ "ArrowDown") (h2 : key ≠ "ArrowLeft") (h3 : key ≠ "ArrowRight")
    (hp : jsParseInt key = none) :
    keydownActions doc key = [] ∧
    keydownTry key (inputButtonsOf doc).length = Except.ok [] ∧
    step doc d (Ev.keydown key) = d := by
  have hact : keydownActions doc key = [] := by
    simp [keydownActions, keydownCatch, keydownTry, keydownTryBody,
      h1, h2, h3, hp]
  exact ⟨hact, by simp [keydownTry, keydownTryBody, hp], by simp [step, hact]⟩

/-- C6 witness: key "Shift" on the five-input page with the button
disabled. -/
theorem keydown_nonnumeric_noop_witness :
    keydownActions doc5 "Shift" = [] ∧
    step doc5 true (Ev.keydown "Shift") = true := by
  have h := keydown_nonnumeric_noop doc5 "Shift" true
    (by decide) (by decide) (by decide) (by decide)
  exact ⟨h.1, h.2.2⟩

/-- C7: when some input on the page (any input, regardless of its name) is
checked at load, the init handler ends with the submit button enabled. -/
theorem init_prechecked_enables (doc : List Input) (d : Bool)
    (h : ∃ b ∈ doc, b.checked = true) :
    initHandler true doc d = Except.ok false :=
  initLoop_true_checked doc d h

/-- C7 witness: a page with one checked input that is not in the
assessment group still enables the submit button. -/
theorem init_prechecked_enables_witness :
    initHandler true [{ checked := true, name := "other" }] true
      = Except.ok false :=
  init_prechecked_enables [{ checked := true, name := "other" }] true
    ⟨{ checked := true, name := "other" }, by decide, by decide⟩

/-- C8 counterexample: with no submit element and a pre-checked input, the
init handler raises a TypeError instead of being a silent no-op. -/
theorem init_missing_submit_faults :
    initHandler false [{ checked := true, name := "assessment" }] true
      = Except.error "TypeError: cannot set disabled of null" := rfl

/-- C8 amended: with no submit element, the init handler completes without
fault (touching nothing) only when no input is checked; a checked input
makes it raise a TypeError, and every click listener it registered raises a
TypeError when fired. -/
theorem init_missing_submit_behavior (doc : List Input) (d : Bool) :
    ((∀ b ∈ doc, b.checked = false) → initHandler false doc d = Except.ok d) ∧
    ((∃ b ∈ doc, b.checked = true) → ∃ e, initHandler false doc d = Except.error e) ∧
    clickListener false = Except.error "TypeError: cannot set disabled of null" := by
  exact ⟨initLoop_false_unchecked doc d, initLoop_false_checked doc d, rfl⟩

/-- C8 witness: evaluated on a page with one unchecked input and on a page
with one checked input. -/
theorem init_missing_submit_behavior_witness :
    initHandler false [{ checked := false, name := "assessment" }] true
      = Except.ok true ∧
    (∃ e, initHandler false [{ checked := true, name := "assessment" }] false
      = Except.error e) := by
  refine ⟨(init_missing_submit_behavior _ true).1 ?_,
          (init_missing_submit_behavior _ false).2.1 ?_⟩
  · decide
  · exact ⟨{ checked := true, name := "assessment" }, by decide, by decide⟩

/-- C9: each keydown selects at most one target: the action list is either
empty or exactly a focus on one index followed by a click on that same
index. -/
theorem keydown_single_target_focus_then_click (doc : List Input) (key : String) :
    keydownActions doc key = [] ∨
    ∃ i : Int, keydownActions doc key = [Act.focus i, Act.click i] := by
  rcases keydownActions_cases doc key with h | ⟨i, _, _, h⟩
  · exact Or.inl h
  · exact Or.inr ⟨i, h⟩

/-- C10: every index the keydown handler focuses or clicks is in bounds for
the assessment sequence captured at registration. -/
theorem keydown_index_in_bounds (doc : List Input) (key : String) (i : Int)
    (h : Act.focus i ∈ keydownActions doc key ∨
         Act.click i ∈ keydownActions doc key) :
    0 ≤ i ∧ i < ((inputButtonsOf doc).length : Int) := by
  rcases keydownActions_cases doc key with hact | ⟨j, hj0, hjn, hact⟩ <;>
      rw [hact] at h
  · rcases h with h | h <;> simp at h
  · rcases h with h | h <;> simp at h <;> omega

/-- C10 witness: ArrowDown on the five-input page targets index 2, which is
within bounds. -/
theorem keydown_index_in_bounds_witness :
    0 ≤ (2 : Int) ∧ (2 : Int) < ((inputButtonsOf doc5).length : Int) :=
  keydown_index_in_bounds doc5 "ArrowDown" 2 (Or.inl (by decide))
